import Mathlib

/-!
Shallow embedding of `explanations.py` from the data-linter repository.

The module renders human-readable explanations of lint results. Python
values are modelled as follows: strings become `String`; Python numbers
(ints, and floats standing for the exact decimal quantities the formatters
print) become `PyNum`, an explicit fraction of machine integers whose
arithmetic is kernel-computable; fallible operations (indexing, true
division, attribute access, tuple unpacking) return `Except PyErr`. Each
`_format_warnings*` function of the source is translated one-to-one below,
keeping the source's evaluation order so that the first raised error is
the one the model reports.
-/

set_option autoImplicit false
set_option linter.unusedVariables false

namespace DataLinter

/-- Python exceptions that the formatting code can raise. -/
inductive PyErr where
  | zeroDivision
  | indexError
  | valueError
  | attributeError
deriving DecidableEq

/-- `l[i]` on a Python list: `IndexError` when out of range. -/
def listGet {α : Type} (l : List α) (i : ℕ) : Except PyErr α :=
  match l.get? i with
  | some a => Except.ok a
  | none => Except.error PyErr.indexError

/-- A Python number as an exact fraction `num / den`. Every operation
below keeps `den` positive; values are written with a positive
denominator. The representation is not kept reduced: all comparisons are
by cross-multiplication, so an unreduced fraction denotes the same
number. -/
structure PyNum where
  num : ℤ
  den : ℤ
deriving DecidableEq

namespace PyNum

/-- Embed an integer. -/
def ofInt (n : ℤ) : PyNum := ⟨n, 1⟩

/-- Multiplication. -/
def mul (a b : PyNum) : PyNum := ⟨a.num * b.num, a.den * b.den⟩

/-- Subtraction. -/
def sub (a b : PyNum) : PyNum := ⟨a.num * b.den - b.num * a.den, a.den * b.den⟩

/-- Absolute value (for a positive denominator). -/
def abs (a : PyNum) : PyNum := ⟨|a.num|, a.den⟩

/-- Value comparison `a < b`, by cross-multiplication. -/
def blt (a b : PyNum) : Bool := decide (a.num * b.den < b.num * a.den)

/-- Value comparison `a ≤ b`, by cross-multiplication. -/
def ble (a b : PyNum) : Bool := decide (a.num * b.den ≤ b.num * a.den)

/-- Value equality, by cross-multiplication. -/
def beq (a b : PyNum) : Bool := decide (a.num * b.den = b.num * a.den)

/-- Exact division, with the result's denominator kept positive. The
caller must rule out a zero divisor. -/
def div (a b : PyNum) : PyNum :=
  let n := a.num * b.den
  let d := a.den * b.num
  if d < 0 then ⟨-n, -d⟩ else ⟨n, d⟩

end PyNum

/-- Python true division `a / b`: `ZeroDivisionError` when `b` is zero. -/
def pydiv (a b : PyNum) : Except PyErr PyNum :=
  if b.num = 0 then Except.error PyErr.zeroDivision else Except.ok (a.div b)

/-- Sequential effectful map, aborting at the first error, as a Python
list comprehension over a fallible expression does. -/
def mapMExcept {α β : Type} (f : α → Except PyErr β) : List α → Except PyErr (List β)
  | [] => Except.ok []
  | a :: as =>
    match f a with
    | Except.error e => Except.error e
    | Except.ok b =>
      match mapMExcept f as with
      | Except.error e => Except.error e
      | Except.ok bs => Except.ok (b :: bs)

/-- `f a ++ concatMap f as`, a flattening map over lists. -/
def concatMap {α β : Type} (f : α → List β) : List α → List β
  | [] => []
  | a :: as => f a ++ concatMap f as

/-- Floor of a fraction with positive denominator. -/
def pnfloor (q : PyNum) : ℤ := Int.fdiv q.num q.den

/-- Round to the nearest integer, ties to even: the rounding Python's
`format` applies to decimal digits. -/
def roundHalfEven (q : PyNum) : ℤ :=
  let f := pnfloor q
  let frac := q.sub (PyNum.ofInt f)
  if PyNum.blt frac ⟨1, 2⟩ then f
  else if PyNum.blt ⟨1, 2⟩ frac then f + 1
  else if f % 2 = 0 then f else f + 1

/-- `10 ^ k` as a `PyNum`, for an integer exponent. -/
def qpow10 (k : ℤ) : PyNum :=
  if 0 ≤ k then ⟨(10 : ℤ) ^ k.toNat, 1⟩ else ⟨1, (10 : ℤ) ^ (-k).toNat⟩

/-- Decimal exponent of a positive fraction: the unique `e` with
`10 ^ e ≤ x < 10 ^ (e + 1)`. The digit-count estimate is valid for any
positive representation, reduced or not. -/
def decExp (x : PyNum) : ℤ :=
  let a := x.num.natAbs
  let b := x.den.natAbs
  let c : ℤ := ((toString a).length : ℤ) - ((toString b).length : ℤ)
  if PyNum.blt x (qpow10 c) then c - 1 else c

/-- A string of `n` zeros. -/
def zeros (n : ℕ) : String := String.mk (List.replicate n '0')

/-- Drop trailing `'0'` characters from a digit string. -/
def stripTrailingZeros (s : String) : String :=
  String.mk ((s.toList.reverse.dropWhile (fun c => c = '0')).reverse)

/-- Python `'{:.pn}'.format(x)` in the C locale, i.e. the `g` presentation
with `p` significant digits: round to `p` significant digits, drop
trailing zeros, use fixed notation when the decimal exponent lies in
`[-4, p)` and scientific notation otherwise. -/
def fmtSig (p : ℕ) (q : PyNum) : String :=
  if q.num = 0 then "0"
  else
    let x := q.abs
    let e0 := decExp x
    let m0 := (roundHalfEven (x.mul (qpow10 ((p : ℤ) - 1 - e0)))).toNat
    let m := if m0 = 10 ^ p then 10 ^ (p - 1) else m0
    let e := if m0 = 10 ^ p then e0 + 1 else e0
    let ds := stripTrailingZeros (toString m)
    let L : ℤ := (ds.length : ℤ)
    let mant :=
      if -4 ≤ e ∧ e < (p : ℤ) then
        if 0 ≤ e then
          if L ≤ e + 1 then ds ++ zeros (e + 1 - L).toNat
          else ds.take (e + 1).toNat ++ "." ++ ds.drop (e + 1).toNat
        else "0." ++ zeros (-e - 1).toNat ++ ds
      else
        (ds.take 1 ++ (if ds.length > 1 then "." ++ ds.drop 1 else "")) ++ "e"
          ++ (if e < 0 then "-" else "+")
          ++ (let a := e.natAbs; if a < 10 then "0" ++ toString a else toString a)
    (if q.num < 0 then "-" else "") ++ mant

/-- Python `'{:.0f}'.format(x)`: round to an integer, ties to even. -/
def fmtF0 (q : PyNum) : String := toString (roundHalfEven q)

/-- A single-quote character, as a string. -/
def sq : String := Char.toString (Char.ofNat 39)

/-- A Python scalar value handled by `pformat`. -/
inductive PyObj where
  | str (s : String)
  | intg (n : ℤ)
  | flt (q : PyNum)
deriving DecidableEq

/-- An argument to `pformat`: a scalar or a sequence of scalars. -/
inductive PVal where
  | obj (o : PyObj)
  | list (l : List PyObj)
deriving DecidableEq

/-- Python 2 `repr` of a float: an exact decimal rendering for the
decimal inputs this model works with. -/
def reprFloat (q : PyNum) : String :=
  let s := if q.num < 0 then "-" else ""
  let an : ℤ := |q.num|
  let d : ℤ := q.den
  if an % d = 0 then s ++ toString (an / d) ++ ".0"
  else
    match (List.range 40).find? (fun k => an * (10 : ℤ) ^ (k + 1) % d == 0) with
    | some k =>
      let kk : ℕ := k + 1
      let n := (an * (10 : ℤ) ^ kk / d).toNat
      let ip := n / 10 ^ kk
      let fp := n % 10 ^ kk
      let fs := toString fp
      s ++ toString ip ++ "." ++ (zeros (kk - fs.length) ++ fs)
    | none => s ++ fmtSig 17 ⟨an, d⟩

/-- Python `repr` of a scalar (strings render between single quotes). -/
def pyrepr : PyObj → String
  | PyObj.str s => sq ++ s ++ sq
  | PyObj.intg n => toString n
  | PyObj.flt q => reprFloat q

/-- `pprint.pformat` on the values the formatters pass it: `repr` of a
scalar, or a bracketed comma-separated list of element `repr`s. -/
def pprint_pformat : PVal → String
  | PVal.obj o => pyrepr o
  | PVal.list l => "[" ++ String.intercalate ", " (l.map pyrepr) ++ "]"

/-- One left-to-right pass of `re.sub(r'u(["\x27])', r'\1', s)` over the
characters: drop a `u` that directly precedes a quote character. -/
def stripUList : List Char → List Char
  | [] => []
  | [c] => [c]
  | c :: q :: rest =>
    if c = 'u' ∧ (q = Char.ofNat 39 ∨ q = Char.ofNat 34) then q :: stripUList rest
    else c :: stripUList (q :: rest)

/-- String wrapper around `stripUList`. -/
def stripU (s : String) : String := String.mk (stripUList s.toList)

/-- Python `s.strip(c)` for a single character: remove every leading and
trailing occurrence. -/
def pystripChar (c : Char) (s : String) : String :=
  String.mk (((s.toList.dropWhile (fun a => a = c)).reverse.dropWhile (fun a => a = c)).reverse)

/-- Python `s.split(c)` for a single-character separator, walking the
characters and cutting at each occurrence (`"".split(c)` is `[""]`). -/
def pysplitAux (c : Char) : List Char → List Char → List String
  | [], acc => [String.mk acc.reverse]
  | x :: rest, acc =>
    if x = c then String.mk acc.reverse :: pysplitAux c rest []
    else pysplitAux c rest (x :: acc)

/-- String wrapper around `pysplitAux`. -/
def pysplit (c : Char) (s : String) : List String := pysplitAux c s.toList []

/-- `pydoc.cram(text, maxlen)`: keep the first and last characters with an
ellipsis in the middle when the text is longer than `maxlen`. -/
def cram (text : String) (maxlen : ℕ) : String :=
  if text.length > maxlen then
    let pre := (maxlen - 3) / 2
    let post := maxlen - 3 - pre
    text.take pre ++ "..." ++ text.drop (text.length - post)
  else text

/-- Maximum display length of a pretty-printed value (`MAX_LEN`). -/
def MAX_LEN : ℕ := 30

/-- `pformat(obj, max_len, quote)` from the source: unwrap a one-element
sequence, format numbers with 4 significant digits, `pprint` anything
else, strip a unicode-marker artifact, optionally strip outer quotes, and
cram to `max_len`. -/
def pformat (v : PVal) (max_len : ℕ) (quote : Bool) : String :=
  let v2 := match v with
    | PVal.list [o] => PVal.obj o
    | x => x
  let pstr := match v2 with
    | PVal.obj (PyObj.intg n) => fmtSig 4 (PyNum.ofInt n)
    | PVal.obj (PyObj.flt q) => fmtSig 4 q
    | x => pprint_pformat x
  let pstr := stripU pstr
  let pstr := if quote then pstr else pystripChar (Char.ofNat 34) (pystripChar (Char.ofNat 39) pstr)
  cram pstr max_len

/-- The `Stats` record attached to a lint sample: named numeric summary
fields plus an identifier naming which fields are populated. -/
structure LintStat where
  id : String
  mean : PyNum
  std_dev : PyNum
  min : PyNum
  max : PyNum
  count : PyNum
deriving DecidableEq

/-- `getattr(stats, name)` for the numeric fields the formatters read;
an unknown name raises `AttributeError`. -/
def statGetattr (st : LintStat) (name : String) : Except PyErr PyNum :=
  if name = "mean" then Except.ok st.mean
  else if name = "std_dev" then Except.ok st.std_dev
  else if name = "min" then Except.ok st.min
  else if name = "max" then Except.ok st.max
  else if name = "count" then Except.ok st.count
  else Except.error PyErr.attributeError

/-- The tagged value list of a `tf.train.Feature`. -/
inductive FeatureValues where
  | bytesList (vs : List String)
  | floatList (vs : List PyNum)
  | int64List (vs : List ℤ)
deriving DecidableEq

/-- `getattr(feature, kind).value` as a list of scalars. -/
def fvVals : FeatureValues → List PyObj
  | FeatureValues.bytesList vs => vs.map PyObj.str
  | FeatureValues.floatList vs => vs.map PyObj.flt
  | FeatureValues.int64List vs => vs.map PyObj.intg

/-- A feature of an `Example`: `kind` is `none` when no oneof field is set
(`WhichOneof` returns `None`). -/
structure PyFeature where
  kind : Option FeatureValues
deriving DecidableEq

/-- A `tf.train.Example`: a map from feature name to feature, modelled as
an association list with distinct keys. -/
structure PyExample where
  features : List (String × PyFeature)
deriving DecidableEq

/-- A `LintSample` proto: optional sequences of strings, numbers, stats
and examples. -/
structure LintSample where
  strings : List String
  nums : List PyNum
  stats : List LintStat
  examples : List PyExample
deriving DecidableEq

/-- A `LintResult` proto: warning identifiers and their parallel samples. -/
structure LintResult where
  warnings : List String
  lint_samples : List LintSample
deriving DecidableEq

/-- `MAX_WIDTH`: default maximum width of an output line. -/
def MAX_WIDTH : ℕ := 80

/-- `FLAG_PREAMBLE`. -/
def FLAG_PREAMBLE : String := "Flagged features:"

/-- `FLAG_SAMPS_PREAMBLE`. -/
def FLAG_SAMPS_PREAMBLE : String := "Flagged features (and sample values):"

/-- `LI.format(s)`: a bullet item. -/
def LI (s : String) : String := "* " ++ s

/-- `LI_SAMP.format(a, b)`: a bullet item with a sample. -/
def LI_SAMP (a b : String) : String := "* " ++ a ++ ": " ++ b

/-- `COLSEP`. -/
def COLSEP : String := " | "

/-- `BORDER_SZ`: width overhead of table borders around one column. -/
def BORDER_SZ : ℕ := ("|   |").length

/-- `PCT_FMT.format(q)`: a percentage with 3 significant digits. -/
def PCT_FMT (q : PyNum) : String := fmtSig 3 q ++ "%"

/-- `ULL_WFMT.format(w, a, b, c, d)` for the list-length-outlier lines. -/
def ULL_WFMT (w a b c d : String) : String :=
  "* " ++ w ++ ": " ++ a ++ " had length " ++ b ++ " but " ++ c ++ " had " ++ d ++ "."

/-- `NFNR_PREAMBLE.format(mean, std_dev)`. -/
def NFNR_PREAMBLE (m sd : PyNum) : String :=
  "A " ++ sq ++ "typical" ++ sq ++ " numeric feature in the dataset has mean " ++
    fmtSig 3 m ++ " and std dev " ++ fmtSig 5 sd ++ " but"

/-- `NFNR_WFMT.format(a, b)`. -/
def NFNR_WFMT (a b : String) : String := "* " ++ a ++ " had " ++ b

/-- `NFNR_STATFMT.format(n, v)`. -/
def NFNR_STATFMT (n : String) (v : PyNum) : String := n ++ " = " ++ fmtSig 5 v

/-- `DD_PREAMBLE.format(w, n)`. -/
def DD_PREAMBLE (w : String) (n : ℕ) : String :=
  "Found " ++ w ++ " exact duplicate examples, " ++ toString n ++ " of which are shown below."

/-- `DD_MAX_VAL_LEN`: maximum width of a table cell. -/
def DD_MAX_VAL_LEN : ℕ := 20

/-- `DD_MAX_COLS`: maximum number of table columns. -/
def DD_MAX_COLS : ℕ := 30

/-- `USD_PREAMBLE`. -/
def USD_PREAMBLE : String := "Flagged features and prevalence of uncommon sign(s):"

/-- `USD_WFMT.format(s, p)`. -/
def USD_WFMT (s p : String) : String := s ++ " occurred " ++ p ++ " of the time"

/-- `TDD_PREAMBLE`. -/
def TDD_PREAMBLE : String := "Flagged features and outlying extrema:"

/-- `TDD_WFMT.format(e, v)`. -/
def TDD_WFMT (e : String) (v : PyNum) : String := e ++ " value of " ++ fmtSig 3 v

/-- `_format_warning_sample_pair(warning, sample, quote_vals)`: a bullet
pairing the warning with its sample's string or numeric values; when the
sample carries no values, the warning string stands in for them. -/
def format_warning_sample_pair (warning : String) (sample : LintSample) (quote_vals : Bool) : String :=
  let wstr := pformat (PVal.obj (PyObj.str warning)) MAX_LEN false
  let samp_vals : List PyObj :=
    if sample.strings = [] then sample.nums.map PyObj.flt else sample.strings.map PyObj.str
  let samp_str := String.intercalate ", " (samp_vals.map (fun v => pformat (PVal.obj v) MAX_LEN quote_vals))
  LI_SAMP wstr (if samp_vals = [] then wstr else samp_str)

/-- The loop shared by the per-warning formatters: walk the warning/sample
pairs in order, let `f` either skip (`none`), produce a line (`some`) or
raise; the first raised error aborts the whole computation. -/
def exceptBody (ps : List (String × LintSample))
    (f : String → LintSample → Except PyErr (Option String)) : Except PyErr (List String) :=
  match ps with
  | [] => Except.ok []
  | (w, s) :: rest =>
    match f w s with
    | Except.error e => Except.error e
    | Except.ok none => exceptBody rest f
    | Except.ok (some line) =>
      match exceptBody rest f with
      | Except.error e => Except.error e
      | Except.ok ls => Except.ok (line :: ls)

/-- `_format_warnings(result, suppress, max_width)`: the generic
formatter. With samples it pairs each non-suppressed warning with its
sample; with no samples it lists every warning, ignoring the suppression
set. -/
def format_warnings (result : LintResult) (suppress : List String) (max_width : ℕ) : List String :=
  if result.lint_samples.isEmpty then
    [FLAG_PREAMBLE, String.intercalate "\n"
      (result.warnings.map (fun w => LI (pformat (PVal.obj (PyObj.str w)) MAX_LEN true)))]
  else
    FLAG_SAMPS_PREAMBLE :: (result.warnings.zip result.lint_samples).filterMap
      (fun p => if suppress.contains p.1 then none
                else some (format_warning_sample_pair p.1 p.2 true))

/-- `_format_warnings_de(result, suppress, max_width)`: the EnumDetector
formatter; like the generic sampled branch but without quoting values. -/
def format_warnings_de (result : LintResult) (suppress : List String) (max_width : ℕ) : List String :=
  FLAG_SAMPS_PREAMBLE :: (result.warnings.zip result.lint_samples).filterMap
    (fun p => if suppress.contains p.1 then none
              else some (format_warning_sample_pair p.1 p.2 false))

/-- `sorted({a, b})`: the deduplicated (by value) ascending list of two
numbers. -/
def sortedPairQ (a b : PyNum) : List PyNum :=
  if PyNum.beq a b then [a] else if PyNum.ble a b then [a, b] else [b, a]

/-- `ULL_WFMT.format(w, *flat)`: Python raises `IndexError` when `flat`
has fewer than the four required items and ignores any extras. -/
def ull_wfmt_apply (w : String) (flat : List String) : Except PyErr (Option String) :=
  match flat with
  | a :: b :: c :: d :: _ => Except.ok (some (ULL_WFMT w a b c d))
  | _ => Except.error PyErr.indexError

/-- The per-warning body of `_format_warnings_llo`. -/
def lloLine (suppress : List String) (w : String) (sample : LintSample) :
    Except PyErr (Option String) :=
  if suppress.contains w then Except.ok none
  else
    match listGet sample.nums 0 with
    | Except.error e => Except.error e
    | Except.ok n_egs =>
      match mapMExcept (fun bucket =>
          match pydiv bucket.count n_egs with
          | Except.error e => Except.error e
          | Except.ok r => Except.ok (PCT_FMT (r.mul (PyNum.ofInt 100)))) sample.stats with
      | Except.error e => Except.error e
      | Except.ok bucket_pcts =>
        let bucket_bounds := sample.stats.map (fun bucket =>
          String.intercalate " to " ((sortedPairQ bucket.min bucket.max).map fmtF0))
        let flat := concatMap (fun p => [p.1, p.2]) (bucket_pcts.zip bucket_bounds)
        ull_wfmt_apply (pformat (PVal.obj (PyObj.str w)) MAX_LEN false) flat

/-- `_format_warnings_llo(result, suppress, max_width)`: the
UncommonListLengthDetector formatter. -/
def format_warnings_llo (result : LintResult) (suppress : List String) (max_width : ℕ) :
    Except PyErr (List String) :=
  match exceptBody (result.warnings.zip result.lint_samples) (lloLine suppress) with
  | Except.error e => Except.error e
  | Except.ok body => Except.ok (FLAG_PREAMBLE :: body)

/-- `_format_warnings_dee(result, suppress, max_width)`: the
EmptyExampleDetector formatter (a single count line). -/
def format_warnings_dee (result : LintResult) (suppress : List String) (max_width : ℕ) :
    Except PyErr (List String) :=
  match listGet result.warnings 0 with
  | Except.error e => Except.error e
  | Except.ok w0 => Except.ok ["Found " ++ w0 ++ " empty examples."]

/-- The per-warning body of `_format_warnings_nfnr`: the warning
identifier is split on a colon into feature and statistic names before
the suppression check, so a malformed identifier always raises
`ValueError`. -/
def nfnrLine (suppress : List String) (w : String) (sample : LintSample) :
    Except PyErr (Option String) :=
  match pysplit (Char.ofNat 58) w with
  | [warned_feature, warning_stats] =>
    let warned_stats := pysplit (Char.ofNat 44) warning_stats
    if suppress.contains warned_feature then Except.ok none
    else
      match listGet sample.stats 0 with
      | Except.error e => Except.error e
      | Except.ok stats =>
        match mapMExcept (fun ws =>
            match statGetattr stats ws with
            | Except.error e => Except.error e
            | Except.ok v => Except.ok (NFNR_STATFMT ws v)) warned_stats with
        | Except.error e => Except.error e
        | Except.ok stats_warnings =>
          Except.ok (some (NFNR_WFMT (pformat (PVal.obj (PyObj.str warned_feature)) MAX_LEN false)
            (String.intercalate ", " stats_warnings)))
  | _ => Except.error PyErr.valueError

/-- `_format_warnings_nfnr(result, suppress, max_width)`: the
NonNormalNumericFeatureDetector formatter; the first sample carries the
dataset-wide stats, the remaining samples pair with the warnings. -/
def format_warnings_nfnr (result : LintResult) (suppress : List String) (max_width : ℕ) :
    Except PyErr (List String) :=
  match listGet result.lint_samples 0 with
  | Except.error e => Except.error e
  | Except.ok samp0 =>
    match listGet samp0.stats 0 with
    | Except.error e => Except.error e
    | Except.ok ds_stats =>
      match exceptBody (result.warnings.zip result.lint_samples.tail) (nfnrLine suppress) with
      | Except.error e => Except.error e
      | Except.ok body => Except.ok (NFNR_PREAMBLE ds_stats.mean ds_stats.std_dev :: body)

/-- One cell of the duplicate-example table: the pretty-printed value list
of feature `col` in example `eg`, or the empty string when the feature is
missing, has no kind set, or holds no values. -/
def ddCellVal (eg : PyExample) (col : String) : String :=
  match eg.features.lookup col with
  | none => ""
  | some feature =>
    match feature.kind with
    | none => ""
    | some fv =>
      let vals := fvVals fv
      if vals = [] then "" else pformat (PVal.list vals) DD_MAX_VAL_LEN true

/-- The width of column `col`: the name width capped at
`DD_MAX_VAL_LEN - BORDER_SZ`, widened by each nonempty cell value capped
at `DD_MAX_VAL_LEN` (empty cells do not widen the column). -/
def ddColWidth (egs : List PyExample) (col : String) : ℕ :=
  egs.foldl (fun w eg =>
      let v := ddCellVal eg col
      if v = "" then w else Nat.max w (Nat.min v.length DD_MAX_VAL_LEN))
    (Nat.min col.length (DD_MAX_VAL_LEN - BORDER_SZ))

/-- Lexicographic comparison of character lists (byte-wise string order,
as Python compares the ASCII feature names here). -/
def charsLt : List Char → List Char → Bool
  | [], [] => false
  | [], _ :: _ => true
  | _ :: _, [] => false
  | x :: xs, y :: ys => if x < y then true else if y < x then false else charsLt xs ys

/-- Insert a string into an ascending list. -/
def insertS (x : String) : List String → List String
  | [] => [x]
  | y :: ys => if charsLt x.toList y.toList then x :: y :: ys else y :: insertS x ys

/-- `sorted(...)` on strings: insertion sort, ascending. -/
def sortStr (l : List String) : List String := l.foldr insertS []

/-- The greedy column-packing loop of `_format_warnings_dd`: close the
current group when adding the column would reach `max_width`; note the
running width restarts at `0`, not at the new column's width, exactly as
in the source. -/
def ddGroupsAux (widths : String → ℕ) (mw : ℕ) :
    List String → List String → ℕ → List (List String)
  | [], cur, _ => [cur]
  | c :: rest, cur, tot =>
    let cw := widths c + BORDER_SZ
    if tot + cw ≥ mw then cur :: ddGroupsAux widths mw rest [c] 0
    else ddGroupsAux widths mw rest (cur ++ [c]) (tot + cw)

/-- A string of `n` spaces. -/
def spaces (n : ℕ) : String := String.mk (List.replicate n ' ')

/-- Python `s.center(w)`: CPython puts the extra space on the left exactly
when both the margin and the width are odd. -/
def center (s : String) (w : ℕ) : String :=
  if w ≤ s.length then s
  else
    let marg := w - s.length
    let left := marg / 2 + (marg &&& w &&& 1)
    spaces left ++ s ++ spaces (marg - left)

/-- `_format_warnings_dd(result, suppress, max_width)`: the
DuplicateExampleDetector formatter; renders the shown duplicates as
fixed-width tables, one per greedily packed column group. -/
def format_warnings_dd (result : LintResult) (suppress : List String) (max_width : ℕ) :
    Except PyErr (List String) :=
  match listGet result.lint_samples 0 with
  | Except.error e => Except.error e
  | Except.ok samp0 =>
    match listGet result.warnings 0 with
    | Except.error e => Except.error e
    | Except.ok w0 =>
      let egs := samp0.examples
      let pre := DD_PREAMBLE w0 egs.length
      let cols := (sortStr (concatMap (fun eg => eg.features.map Prod.fst) egs).dedup).take DD_MAX_COLS
      let widths := fun c => ddColWidth egs c
      let col_groups := ddGroupsAux widths max_width cols [] 0
      let n := col_groups.length
      let render := fun (i : ℕ) (grp : List String) =>
        let left := if i = 1 then "| " else " "
        let right := if i = 1 then (if n = 1 then " |" else " ")
                     else if i < n then " " else " |"
        let heading := left ++
          String.intercalate COLSEP (grp.map (fun c => center (cram c (widths c)) (widths c))) ++ right
        let hrule := String.mk (List.replicate heading.length '-')
        let rows := egs.map (fun eg => left ++
          String.intercalate COLSEP (grp.map (fun c => center (ddCellVal eg c) (widths c))) ++ right)
        String.intercalate "\n" ([hrule, heading, hrule] ++ rows ++ [hrule])
      let col_group_strs :=
        ((List.range n).zip col_groups).map (fun p => render (p.1 + 1) p.2)
      Except.ok [pre, String.intercalate "\n\n" col_group_strs]

/-- The percentage string of one sign bucket in the uncommon-sign
formatter: shares of at least 1% use `PCT_FMT`, smaller shares render as
the literal below-one-percent marker. -/
def usdPctStr (pct : PyNum) : String :=
  if PyNum.ble (PyNum.ofInt 1) pct then PCT_FMT pct else "< 1%"

/-- The per-warning body of `_format_warnings_dus`. -/
def dusLine (suppress : List String) (w : String) (sample : LintSample) :
    Except PyErr (Option String) :=
  if suppress.contains w then Except.ok none
  else
    match listGet sample.nums 0 with
    | Except.error e => Except.error e
    | Except.ok num_unique_vals =>
      match mapMExcept (fun p =>
          match pydiv p.2 num_unique_vals with
          | Except.error e => Except.error e
          | Except.ok q => Except.ok (USD_WFMT p.1 (usdPctStr (q.mul (PyNum.ofInt 100)))))
          (sample.strings.zip sample.nums.tail) with
      | Except.error e => Except.error e
      | Except.ok wstrs =>
        Except.ok (some (LI_SAMP (pformat (PVal.obj (PyObj.str w)) MAX_LEN false)
          (String.intercalate ", " wstrs)))

/-- `_format_warnings_dus(result, suppress, max_width)`: the
UncommonSignDetector formatter. -/
def format_warnings_dus (result : LintResult) (suppress : List String) (max_width : ℕ) :
    Except PyErr (List String) :=
  match exceptBody (result.warnings.zip result.lint_samples) (dusLine suppress) with
  | Except.error e => Except.error e
  | Except.ok body => Except.ok (USD_PREAMBLE :: body)

/-- The per-warning body of `_format_warnings_don`. -/
def donLine (suppress : List String) (w : String) (sample : LintSample) :
    Except PyErr (Option String) :=
  if suppress.contains w then Except.ok none
  else
    match listGet sample.stats 0 with
    | Except.error e => Except.error e
    | Except.ok stats =>
      let extremes := pysplit (Char.ofNat 44) stats.id
      match mapMExcept (statGetattr stats) extremes with
      | Except.error e => Except.error e
      | Except.ok extremal =>
        let wstrs := (extremes.zip extremal).map (fun p => TDD_WFMT p.1 p.2)
        Except.ok (some (LI_SAMP (pformat (PVal.obj (PyObj.str w)) MAX_LEN false)
          (String.intercalate ", " wstrs)))

/-- `_format_warnings_don(result, suppress, max_width)`: the
TailedDistributionDetector formatter. -/
def format_warnings_don (result : LintResult) (suppress : List String) (max_width : ℕ) :
    Except PyErr (List String) :=
  match exceptBody (result.warnings.zip result.lint_samples) (donLine suppress) with
  | Except.error e => Except.error e
  | Except.ok body => Except.ok (TDD_PREAMBLE :: body)

/-- `_format_warnings_iaf(result, suppress, max_width)`: the
IntAsFloatDetector formatter; a bare bullet list of every warning,
ignoring the suppression set. -/
def format_warnings_iaf (result : LintResult) (suppress : List String) (max_width : ℕ) :
    List String :=
  [FLAG_PREAMBLE, String.intercalate "\n"
    (result.warnings.map (fun w => LI (pformat (PVal.obj (PyObj.str w)) MAX_LEN false)))]

/-- The single example of the C2 failing input: eight features `c1`..`c8`,
each holding one 17-character bytes value, whose cells pretty-print to 19
characters. -/
def c2eg : PyExample := ⟨[
  ("c1", ⟨some (FeatureValues.bytesList ["vvvvvvvvvvvvvvvvv"])⟩),
  ("c2", ⟨some (FeatureValues.bytesList ["vvvvvvvvvvvvvvvvv"])⟩),
  ("c3", ⟨some (FeatureValues.bytesList ["vvvvvvvvvvvvvvvvv"])⟩),
  ("c4", ⟨some (FeatureValues.bytesList ["vvvvvvvvvvvvvvvvv"])⟩),
  ("c5", ⟨some (FeatureValues.bytesList ["vvvvvvvvvvvvvvvvv"])⟩),
  ("c6", ⟨some (FeatureValues.bytesList ["vvvvvvvvvvvvvvvvv"])⟩),
  ("c7", ⟨some (FeatureValues.bytesList ["vvvvvvvvvvvvvvvvv"])⟩),
  ("c8", ⟨some (FeatureValues.bytesList ["vvvvvvvvvvvvvvvvv"])⟩)]⟩

/-- The C2 failing input: a duplicate-example result showing one example
with the eight columns of `c2eg`. -/
def c2res : LintResult := ⟨["2"], [⟨[], [], [], [c2eg]⟩]⟩

/-- Maximum length of a rendered display line in a formatter result,
after splitting the multi-line blocks on newlines (errors count as
zero). -/
def exceptMaxLineLen (r : Except PyErr (List String)) : ℕ :=
  match r with
  | Except.error _ => 0
  | Except.ok ls =>
    (concatMap (fun s => pysplit (Char.ofNat 10) s) ls).foldl
      (fun m l => Nat.max m (String.length l)) 0

lemma exceptBody_eq_nil (ps : List (String × LintSample))
    (f : String → LintSample → Except PyErr (Option String))
    (h : ∀ p ∈ ps, f p.1 p.2 = Except.ok none) : exceptBody ps f = Except.ok [] := by
  induction ps with
  | nil => rfl
  | cons p rest ih =>
    obtain ⟨w, s⟩ := p
    have hp := h (w, s) (List.mem_cons_self _ _)
    simp only [exceptBody, hp]
    exact ih (fun q hq => h q (List.mem_cons_of_mem _ hq))

lemma zip_take_len {α β : Type} (xs : List α) (ys : List β) :
    xs.zip ys = (xs.take ys.length).zip ys := by
  induction xs generalizing ys with
  | nil => simp
  | cons x xs ih =>
    cases ys with
    | nil => simp
    | cons y ys => simpa using ih ys

/-- C1 counterexample. The claim says every formatter drops suppressed
warnings, naming the generic formatter's no-samples branch and the
int-as-float formatter; but both branches never consult the suppression
set, so a fully suppressed warning still produces a body bullet. -/
theorem C1_counterexample :
    format_warnings ⟨["a"], []⟩ ["a"] 80 = [FLAG_PREAMBLE, "* " ++ sq ++ "a" ++ sq] ∧
    format_warnings ⟨["a"], []⟩ ["a"] 80 ≠ [FLAG_PREAMBLE] ∧
    format_warnings_iaf ⟨["a"], []⟩ ["a"] 80 = [FLAG_PREAMBLE, "* a"] ∧
    format_warnings_iaf ⟨["a"], []⟩ ["a"] 80 ≠ [FLAG_PREAMBLE] :=
  ⟨rfl, by decide, rfl, by decide⟩

/-- C1, amended. The formatters that pair warnings with samples and test
membership per warning — the generic formatter when samples are present,
and the enumerated-value, list-length-outlier, uncommon-sign and
tailed-distribution formatters — contribute no body line for a suppressed
warning: with every warning suppressed the output is only the preamble. -/
theorem C1_suppression (r : LintResult) (sup : List String) (mw : ℕ)
    (hall : ∀ w ∈ r.warnings, w ∈ sup)
    (hs : r.lint_samples ≠ []) :
    format_warnings r sup mw = [FLAG_SAMPS_PREAMBLE] ∧
    format_warnings_de r sup mw = [FLAG_SAMPS_PREAMBLE] ∧
    format_warnings_llo r sup mw = Except.ok [FLAG_PREAMBLE] ∧
    format_warnings_dus r sup mw = Except.ok [USD_PREAMBLE] ∧
    format_warnings_don r sup mw = Except.ok [TDD_PREAMBLE] := by
  have hzip : ∀ p ∈ r.warnings.zip r.lint_samples, p.1 ∈ sup :=
    fun p hp => hall p.1 (List.of_mem_zip hp).1
  have hemp : r.lint_samples.isEmpty = false := by
    cases h : r.lint_samples with
    | nil => exact absurd h hs
    | cons a l => rfl
  have hllo : exceptBody (r.warnings.zip r.lint_samples) (lloLine sup) = Except.ok [] :=
    exceptBody_eq_nil _ _ (fun p hp => by simp [lloLine, hzip p hp])
  have hdus : exceptBody (r.warnings.zip r.lint_samples) (dusLine sup) = Except.ok [] :=
    exceptBody_eq_nil _ _ (fun p hp => by simp [dusLine, hzip p hp])
  have hdon : exceptBody (r.warnings.zip r.lint_samples) (donLine sup) = Except.ok [] :=
    exceptBody_eq_nil _ _ (fun p hp => by simp [donLine, hzip p hp])
  refine ⟨?_, ?_, ?_, ?_, ?_⟩
  · simp only [format_warnings, hemp, Bool.false_eq_true, if_false]
    rw [List.filterMap_eq_nil_iff.mpr]
    intro p hp
    simp [hzip p hp]
  · simp only [format_warnings_de]
    rw [List.filterMap_eq_nil_iff.mpr]
    intro p hp
    simp [hzip p hp]
  · simp [format_warnings_llo, hllo]
  · simp [format_warnings_dus, hdus]
  · simp [format_warnings_don, hdon]

/-- Witness for C1's amended theorem at a concrete fully-suppressed
result. -/
theorem C1_suppression_witness :
    (∀ w ∈ (["x"] : List String), w ∈ (["x"] : List String)) ∧
    (([⟨[], [], [], []⟩] : List LintSample) ≠ []) ∧
    (format_warnings ⟨["x"], [⟨[], [], [], []⟩]⟩ ["x"] 80 = [FLAG_SAMPS_PREAMBLE] ∧
     format_warnings_de ⟨["x"], [⟨[], [], [], []⟩]⟩ ["x"] 80 = [FLAG_SAMPS_PREAMBLE] ∧
     format_warnings_llo ⟨["x"], [⟨[], [], [], []⟩]⟩ ["x"] 80 = Except.ok [FLAG_PREAMBLE] ∧
     format_warnings_dus ⟨["x"], [⟨[], [], [], []⟩]⟩ ["x"] 80 = Except.ok [USD_PREAMBLE] ∧
     format_warnings_don ⟨["x"], [⟨[], [], [], []⟩]⟩ ["x"] 80 = Except.ok [TDD_PREAMBLE]) :=
  ⟨by decide, by decide,
   C1_suppression ⟨["x"], [⟨[], [], [], []⟩]⟩ ["x"] 80 (by decide) (by decide)⟩

/-- C2 (code bug). At `c2res` — one shown example, eight columns whose
cells all pretty-print to 19 characters, under the default maximum width
of 80 — the duplicate-example formatter renders a line of 87 characters:
the greedy packing loop restarts its running width at 0 instead of at the
first column's width of the new group, so the second column group is one
column too wide. The claim (and the spec) require every rendered line to
stay within the maximum width. -/
theorem C2_table_overflow :
    exceptMaxLineLen (format_warnings_dd c2res [] MAX_WIDTH) = 87 ∧ MAX_WIDTH < 87 :=
  ⟨rfl, by decide⟩

/-- C3 counterexample. The claim says the list-length-outlier and
uncommon-sign formatters guard a zero denominator; on a sample whose
first num is zero both instead abort with a division error. -/
theorem C3_counterexample :
    format_warnings_llo ⟨["f"],
      [⟨[], [⟨0, 1⟩], [⟨"", ⟨0, 1⟩, ⟨0, 1⟩, ⟨1, 1⟩, ⟨2, 1⟩, ⟨3, 1⟩⟩,
                       ⟨"", ⟨0, 1⟩, ⟨0, 1⟩, ⟨3, 1⟩, ⟨4, 1⟩, ⟨5, 1⟩⟩], []⟩]⟩ [] 80
      = Except.error PyErr.zeroDivision ∧
    format_warnings_dus ⟨["g"], [⟨["+"], [⟨0, 1⟩, ⟨5, 1⟩], [], []⟩]⟩ [] 80
      = Except.error PyErr.zeroDivision :=
  ⟨rfl, rfl⟩

/-- C3, amended. Neither formatter guards the division: for a
non-suppressed first warning whose sample's first num is zero, the
list-length-outlier formatter (with at least one stats bucket) and the
uncommon-sign formatter (with at least one sign string and count) raise
a division error instead of skipping the row or reporting zero. -/
theorem C3_unguarded_division :
    (∀ (w : String) (s : LintSample) (z : PyNum) (ws : List String)
        (ss : List LintSample) (sup : List String) (mw : ℕ),
        sup.contains w = false → listGet s.nums 0 = Except.ok z → z.num = 0 →
        s.stats ≠ [] →
        format_warnings_llo ⟨w :: ws, s :: ss⟩ sup mw = Except.error PyErr.zeroDivision) ∧
    (∀ (w : String) (s : LintSample) (z : PyNum) (ws : List String)
        (ss : List LintSample) (sup : List String) (mw : ℕ),
        sup.contains w = false → listGet s.nums 0 = Except.ok z → z.num = 0 →
        s.strings ≠ [] → s.nums.tail ≠ [] →
        format_warnings_dus ⟨w :: ws, s :: ss⟩ sup mw = Except.error PyErr.zeroDivision) := by
  constructor
  · intro w s z ws ss sup mw hsup hn hz hst
    obtain ⟨b, bs, hb⟩ : ∃ b bs, s.stats = b :: bs := by
      cases h : s.stats with
      | nil => exact absurd h hst
      | cons a l => exact ⟨a, l, rfl⟩
    have hmem : w ∉ sup := by simpa using hsup
    have hline : lloLine sup w s = Except.error PyErr.zeroDivision := by
      simp [lloLine, hmem, hn, hb, mapMExcept, pydiv, hz]
    simp [format_warnings_llo, exceptBody, hline]
  · intro w s z ws ss sup mw hsup hn hz hstr htl
    obtain ⟨a, as, ha⟩ : ∃ a as, s.strings = a :: as := by
      cases h : s.strings with
      | nil => exact absurd h hstr
      | cons x l => exact ⟨x, l, rfl⟩
    obtain ⟨b, bs, hb⟩ : ∃ b bs, s.nums.tail = b :: bs := by
      cases h : s.nums.tail with
      | nil => exact absurd h htl
      | cons x l => exact ⟨x, l, rfl⟩
    have hmem : w ∉ sup := by simpa using hsup
    have hline : dusLine sup w s = Except.error PyErr.zeroDivision := by
      simp [dusLine, hmem, hn, ha, hb, mapMExcept, pydiv, hz]
    simp [format_warnings_dus, exceptBody, hline]

/-- Witness for C3's amended theorem at concrete zero-denominator
inputs. -/
theorem C3_unguarded_division_witness :
    format_warnings_llo ⟨["h"],
      [⟨[], [⟨0, 1⟩], [⟨"", ⟨0, 1⟩, ⟨0, 1⟩, ⟨2, 1⟩, ⟨2, 1⟩, ⟨4, 1⟩⟩], []⟩]⟩ [] 80
      = Except.error PyErr.zeroDivision ∧
    format_warnings_dus ⟨["k"], [⟨["-"], [⟨0, 1⟩, ⟨3, 1⟩], [], []⟩]⟩ [] 80
      = Except.error PyErr.zeroDivision :=
  ⟨C3_unguarded_division.1 "h" ⟨[], [⟨0, 1⟩], [⟨"", ⟨0, 1⟩, ⟨0, 1⟩, ⟨2, 1⟩, ⟨2, 1⟩, ⟨4, 1⟩⟩], []⟩
      ⟨0, 1⟩ [] [] [] 80 rfl rfl rfl (by decide),
   C3_unguarded_division.2 "k" ⟨["-"], [⟨0, 1⟩, ⟨3, 1⟩], [], []⟩
      ⟨0, 1⟩ [] [] [] 80 rfl rfl rfl (by decide) (by decide)⟩

/-- C4 counterexample. Under its default arguments (`quote = true`) the
value pretty-printer keeps the `repr` quotes: `["5"]` renders as `'5'`,
not as the claimed bare `5`. -/
theorem C4_counterexample :
    pformat (PVal.list [PyObj.str "5"]) MAX_LEN true = sq ++ "5" ++ sq ∧
    sq ++ "5" ++ sq ≠ "5" :=
  ⟨rfl, by decide⟩

/-- C4, amended. With `quote = false` the single-element sequence `["5"]`
unwraps to the bare string `5`; the number `3.14159` renders as `3.142`
(4 significant digits) as claimed. -/
theorem C4_pformat :
    pformat (PVal.list [PyObj.str "5"]) MAX_LEN false = "5" ∧
    pformat (PVal.obj (PyObj.flt ⟨314159, 100000⟩)) MAX_LEN true = "3.142" :=
  ⟨rfl, rfl⟩

/-- C5. A sign bucket with share exactly 0.5% renders `< 1%` and one with
share exactly 1.0% renders `1%`, through the full uncommon-sign
formatter; and in general the below-one-percent branch of the bucket
renderer is taken exactly when the percentage is below 1. -/
theorem C5_pct_branch (p q : PyNum)
    (hp : PyNum.blt p (PyNum.ofInt 1) = true)
    (hq : PyNum.ble (PyNum.ofInt 1) q = true) :
    format_warnings_dus ⟨["f"], [⟨["+"], [⟨200, 1⟩, ⟨1, 1⟩], [], []⟩]⟩ [] 80
      = Except.ok [USD_PREAMBLE, "* f: + occurred < 1% of the time"] ∧
    format_warnings_dus ⟨["f"], [⟨["+"], [⟨100, 1⟩, ⟨1, 1⟩], [], []⟩]⟩ [] 80
      = Except.ok [USD_PREAMBLE, "* f: + occurred 1% of the time"] ∧
    usdPctStr p = "< 1%" ∧ usdPctStr q = PCT_FMT q := by
  refine ⟨rfl, rfl, ?_, ?_⟩
  · have h1 : p.num * 1 < 1 * p.den := by simpa [PyNum.blt, PyNum.ofInt] using hp
    have h2 : PyNum.ble (PyNum.ofInt 1) p = false := by
      simp only [PyNum.ble, PyNum.ofInt, decide_eq_false_iff_not]
      omega
    simp [usdPctStr, h2]
  · simp [usdPctStr, hq]

/-- Witness for C5 at the shares 0.5 and 1. -/
theorem C5_pct_branch_witness :
    format_warnings_dus ⟨["f"], [⟨["+"], [⟨200, 1⟩, ⟨1, 1⟩], [], []⟩]⟩ [] 80
      = Except.ok [USD_PREAMBLE, "* f: + occurred < 1% of the time"] ∧
    format_warnings_dus ⟨["f"], [⟨["+"], [⟨100, 1⟩, ⟨1, 1⟩], [], []⟩]⟩ [] 80
      = Except.ok [USD_PREAMBLE, "* f: + occurred 1% of the time"] ∧
    usdPctStr ⟨1, 2⟩ = "< 1%" ∧ usdPctStr ⟨1, 1⟩ = PCT_FMT ⟨1, 1⟩ :=
  C5_pct_branch ⟨1, 2⟩ ⟨1, 1⟩ (by decide) (by decide)

/-- C6. The warning `height:mean,std_dev` with a sample whose first stats
record has mean 1.5 and std-dev 0.25 produces exactly the body line
`* height had mean = 1.5, std_dev = 0.25` (a line containing
`mean = 1.5` followed by `std_dev = 0.25`, only the two parsed statistic
names, at 5 significant digits), after the dataset-stats preamble. -/
theorem C6_stat_line :
    format_warnings_nfnr ⟨["height:mean,std_dev"],
      [⟨[], [], [⟨"", ⟨2, 1⟩, ⟨1, 1⟩, ⟨0, 1⟩, ⟨0, 1⟩, ⟨0, 1⟩⟩], []⟩,
       ⟨[], [], [⟨"", ⟨3, 2⟩, ⟨1, 4⟩, ⟨0, 1⟩, ⟨0, 1⟩, ⟨0, 1⟩⟩], []⟩]⟩ [] 80
      = Except.ok ["A " ++ sq ++ "typical" ++ sq ++
          " numeric feature in the dataset has mean 2 and std dev 1 but",
          "* height had " ++ "mean = 1.5" ++ ", " ++ "std_dev = 0.25"] :=
  rfl

/-- C7. A warning identifier without exactly one colon cannot be unpacked
into a feature name and a statistic-name suffix: the non-normal-numeric
formatter propagates a `ValueError` instead of producing output. -/
theorem C7_malformed_warning (w : String) (ds s : LintSample) (ws : List String)
    (ss : List LintSample) (sup : List String) (mw : ℕ)
    (hds : ds.stats ≠ []) (hw : (pysplit (Char.ofNat 58) w).length ≠ 2) :
    format_warnings_nfnr ⟨w :: ws, ds :: s :: ss⟩ sup mw = Except.error PyErr.valueError := by
  obtain ⟨st, sts, hst⟩ : ∃ st sts, ds.stats = st :: sts := by
    cases h : ds.stats with
    | nil => exact absurd h hds
    | cons a l => exact ⟨a, l, rfl⟩
  have hline : nfnrLine sup w s = Except.error PyErr.valueError := by
    rcases hp : pysplit (Char.ofNat 58) w with _ | ⟨a, _ | ⟨b, _ | ⟨c, l⟩⟩⟩
    · simp [nfnrLine, hp]
    · simp [nfnrLine, hp]
    · rw [hp] at hw
      simp at hw
    · simp [nfnrLine, hp]
  simp [format_warnings_nfnr, listGet, hst, exceptBody, hline]

/-- Witness for C7 at the colonless identifier `height`. -/
theorem C7_malformed_warning_witness :
    (([⟨"", ⟨2, 1⟩, ⟨1, 1⟩, ⟨0, 1⟩, ⟨0, 1⟩, ⟨0, 1⟩⟩] : List LintStat) ≠ []) ∧
    ((pysplit (Char.ofNat 58) "height").length ≠ 2) ∧
    format_warnings_nfnr ⟨["height"],
      [⟨[], [], [⟨"", ⟨2, 1⟩, ⟨1, 1⟩, ⟨0, 1⟩, ⟨0, 1⟩, ⟨0, 1⟩⟩], []⟩, ⟨[], [], [], []⟩]⟩ [] 80
      = Except.error PyErr.valueError :=
  ⟨by decide, by decide,
   C7_malformed_warning "height" ⟨[], [], [⟨"", ⟨2, 1⟩, ⟨1, 1⟩, ⟨0, 1⟩, ⟨0, 1⟩, ⟨0, 1⟩⟩], []⟩
     ⟨[], [], [], []⟩ [] [] [] 80 (by decide) (by decide)⟩

/-- C8 counterexample. For a sample with no values, the warning/sample
pair formatter does not render an empty sample string: it repeats the
warning text in the sample slot. -/
theorem C8_counterexample :
    format_warning_sample_pair "a" ⟨[], [], [], []⟩ true = "* a: a" ∧
    format_warning_sample_pair "a" ⟨[], [], [], []⟩ true ≠ "* a: " :=
  ⟨rfl, by decide⟩

/-- C8, amended. Empty value fields never fail: the pair formatter
substitutes the pretty-printed warning for the missing sample values, and
the duplicate-example formatter renders an empty cell when a feature is
absent, has no kind set, or holds an empty value list. -/
theorem C8_empty_sample (w : String) (s : LintSample) (q : Bool)
    (eg1 : PyExample) (col1 : String)
    (eg2 : PyExample) (col2 : String) (f2 : PyFeature)
    (eg3 : PyExample) (col3 : String) (f3 : PyFeature) (fv3 : FeatureValues)
    (h1 : s.strings = []) (h2 : s.nums = [])
    (hl1 : eg1.features.lookup col1 = none)
    (hl2 : eg2.features.lookup col2 = some f2) (hk2 : f2.kind = none)
    (hl3 : eg3.features.lookup col3 = some f3) (hk3 : f3.kind = some fv3)
    (hv3 : fvVals fv3 = []) :
    format_warning_sample_pair w s q =
      LI_SAMP (pformat (PVal.obj (PyObj.str w)) MAX_LEN false)
        (pformat (PVal.obj (PyObj.str w)) MAX_LEN false) ∧
    ddCellVal eg1 col1 = "" ∧ ddCellVal eg2 col2 = "" ∧ ddCellVal eg3 col3 = "" := by
  refine ⟨?_, ?_, ?_, ?_⟩
  · simp [format_warning_sample_pair, h1, h2]
  · simp [ddCellVal, hl1]
  · simp [ddCellVal, hl2, hk2]
  · simp [ddCellVal, hl3, hk3, hv3]

/-- Witness for C8's amended theorem at concrete empty-valued inputs. -/
theorem C8_empty_sample_witness :
    format_warning_sample_pair "a" ⟨[], [], [], []⟩ true =
      LI_SAMP (pformat (PVal.obj (PyObj.str "a")) MAX_LEN false)
        (pformat (PVal.obj (PyObj.str "a")) MAX_LEN false) ∧
    ddCellVal ⟨[]⟩ "x" = "" ∧
    ddCellVal ⟨[("y", ⟨none⟩)]⟩ "y" = "" ∧
    ddCellVal ⟨[("z", ⟨some (FeatureValues.bytesList [])⟩)]⟩ "z" = "" :=
  C8_empty_sample "a" ⟨[], [], [], []⟩ true ⟨[]⟩ "x" ⟨[("y", ⟨none⟩)]⟩ "y" ⟨none⟩
    ⟨[("z", ⟨some (FeatureValues.bytesList [])⟩)]⟩ "z" ⟨some (FeatureValues.bytesList [])⟩
    (FeatureValues.bytesList []) rfl rfl rfl rfl rfl rfl rfl rfl

/-- C9. The generic formatter on warnings `a`, `b` with no samples and an
empty suppression set yields exactly the preamble line followed by one
block of two bullets, whose first bullet carries `a` and second carries
`b` (each quoted by the value pretty-printer's default). -/
theorem C9_generic_round_trip :
    format_warnings ⟨["a", "b"], []⟩ [] 80 =
      [FLAG_PREAMBLE, LI (sq ++ "a" ++ sq) ++ "\n" ++ LI (sq ++ "b" ++ sq)] ∧
    (format_warnings ⟨["a", "b"], []⟩ [] 80).length = 2 ∧
    pysplit (Char.ofNat 10) (LI (sq ++ "a" ++ sq) ++ "\n" ++ LI (sq ++ "b" ++ sq)) =
      [LI (sq ++ "a" ++ sq), LI (sq ++ "b" ++ sq)] :=
  ⟨rfl, rfl, rfl⟩

/-- C10. Every sample-pairing formatter walks `zip(warnings, samples)`, so
when the sample list is non-empty but shorter than the warning list the
trailing warnings are silently dropped: the output equals the output on
the warning list truncated to the number of samples, with no error from
the length mismatch itself. -/
theorem C10_zip_truncation (ws : List String) (ss : List LintSample)
    (sup : List String) (mw : ℕ) (h1 : 0 < ss.length) (h2 : ss.length < ws.length) :
    format_warnings ⟨ws, ss⟩ sup mw = format_warnings ⟨ws.take ss.length, ss⟩ sup mw ∧
    format_warnings_de ⟨ws, ss⟩ sup mw = format_warnings_de ⟨ws.take ss.length, ss⟩ sup mw ∧
    format_warnings_llo ⟨ws, ss⟩ sup mw = format_warnings_llo ⟨ws.take ss.length, ss⟩ sup mw ∧
    format_warnings_dus ⟨ws, ss⟩ sup mw = format_warnings_dus ⟨ws.take ss.length, ss⟩ sup mw ∧
    format_warnings_don ⟨ws, ss⟩ sup mw = format_warnings_don ⟨ws.take ss.length, ss⟩ sup mw := by
  obtain ⟨s, ss', rfl⟩ : ∃ s ss', ss = s :: ss' := by
    cases ss with
    | nil => simp at h1
    | cons a l => exact ⟨a, l, rfl⟩
  have hz := zip_take_len ws (s :: ss')
  refine ⟨?_, ?_, ?_, ?_, ?_⟩
  · simp only [format_warnings, List.isEmpty_cons, Bool.false_eq_true, if_false]
    rw [hz]
  · dsimp only [format_warnings_de]
    rw [hz]
  · dsimp only [format_warnings_llo]
    rw [hz]
  · dsimp only [format_warnings_dus]
    rw [hz]
  · dsimp only [format_warnings_don]
    rw [hz]

/-- Witness for C10: two warnings, one sample. -/
theorem C10_zip_truncation_witness :
    (0 < ([⟨[], [], [], []⟩] : List LintSample).length) ∧
    (([⟨[], [], [], []⟩] : List LintSample).length < (["a", "b"] : List String).length) ∧
    (format_warnings ⟨["a", "b"], [⟨[], [], [], []⟩]⟩ [] 80 =
       format_warnings ⟨["a"], [⟨[], [], [], []⟩]⟩ [] 80 ∧
     format_warnings_de ⟨["a", "b"], [⟨[], [], [], []⟩]⟩ [] 80 =
       format_warnings_de ⟨["a"], [⟨[], [], [], []⟩]⟩ [] 80 ∧
     format_warnings_llo ⟨["a", "b"], [⟨[], [], [], []⟩]⟩ [] 80 =
       format_warnings_llo ⟨["a"], [⟨[], [], [], []⟩]⟩ [] 80 ∧
     format_warnings_dus ⟨["a", "b"], [⟨[], [], [], []⟩]⟩ [] 80 =
       format_warnings_dus ⟨["a"], [⟨[], [], [], []⟩]⟩ [] 80 ∧
     format_warnings_don ⟨["a", "b"], [⟨[], [], [], []⟩]⟩ [] 80 =
       format_warnings_don ⟨["a"], [⟨[], [], [], []⟩]⟩ [] 80) :=
  ⟨by decide, by decide,
   C10_zip_truncation ["a", "b"] [⟨[], [], [], []⟩] [] 80 (by decide) (by decide)⟩

end DataLinter
